import Mathlib

/-!
Shallow embedding of the kitsunejs containers (`src/core/result.ts`,
`src/core/option.ts`, `src/core/errors.ts`).

Modelling conventions:
* The TypeScript classes `Ok`/`Err` and `Some`/`None` become the two
  constructors of closed inductive types, matching the `tag` discriminant.
* Operations whose bodies can `throw` (the unsafe extractors, and the
  operations whose bodies call `unwrap` internally) return
  `Except UnwrapError _`; `Except.error` models a thrown `UnwrapError`.
* JavaScript `null`/`undefined` inputs to `fromNullable` are modelled by the
  `Nullable` inductive, whose `value` constructor carries a genuine value.
* `JSON.stringify` is modelled as an explicit `stringify : E → String`
  parameter on the operations whose source interpolates it into a message.
* Caller-supplied callbacks are total Lean functions, matching the claims'
  proviso that caller-supplied functions do not themselves throw.
-/

deriving instance DecidableEq for Except

namespace Kitsune

/-- From `src/core/errors.ts`: `class UnwrapError extends Error` carrying a
message; its constructor sets `this.name = "UnwrapError"`. -/
structure UnwrapError where
  message : String
deriving DecidableEq

/-- `errors.ts` sets the `name` field of every `UnwrapError` to the literal
string `"UnwrapError"`. -/
def UnwrapError.name (_ : UnwrapError) : String :=
  "UnwrapError"

/-- A JavaScript value that may be `null` or `undefined`: the domain of the
`fromNullable` factories (`value: T | null | undefined`). -/
inductive Nullable (T : Type u) where
  | null
  | undefined
  | value (v : T)
deriving DecidableEq

/-- `Result<T, E>` from `src/core/result.ts`: the closed sum of the `Ok`
subclass (holding `value: T`) and the `Err` subclass (holding `error: E`). -/
inductive Result (T : Type u) (E : Type v) where
  | ok (value : T)
  | err (error : E)
deriving DecidableEq

/-- `Option<T>` from `src/core/option.ts`: the closed sum of the `Some`
subclass (holding `value: T`) and the `None` subclass. -/
inductive Option (T : Type u) where
  | some (value : T)
  | none
deriving DecidableEq

namespace Result

variable {T : Type u} {E : Type v} {U : Type w} {F : Type x}

/-- `Ok.isOk` returns `true`; `Err.isOk` returns `false`. -/
def isOk : Result T E → Bool
  | .ok _ => true
  | .err _ => false

/-- `Ok.isErr` returns `false`; `Err.isErr` returns `true`. -/
def isErr : Result T E → Bool
  | .ok _ => false
  | .err _ => true

/-- `unwrap()`: `Ok` returns its value; `Err` throws
`new UnwrapError("Called unwrap on an Err value: " + JSON.stringify(error))`.
`stringify` stands for `JSON.stringify`. -/
def unwrap (stringify : E → String) : Result T E → Except UnwrapError T
  | .ok v => Except.ok v
  | .err e =>
      Except.error ⟨"Called unwrap on an Err value: " ++ stringify e⟩

/-- `expect(message)`: `Ok` returns its value; `Err` throws
`new UnwrapError(message)`. -/
def expect (message : String) : Result T E → Except UnwrapError T
  | .ok v => Except.ok v
  | .err _ => Except.error ⟨message⟩

/-- `unwrapErr()`: `Ok` throws
`new UnwrapError("Called unwrapErr on an Ok value")`; `Err` returns its
error. -/
def unwrapErr : Result T E → Except UnwrapError E
  | .ok _ => Except.error ⟨"Called unwrapErr on an Ok value"⟩
  | .err e => Except.ok e

/-- `expectErr(message)`: `Ok` throws `new UnwrapError(message)`; `Err`
returns its error. -/
def expectErr (message : String) : Result T E → Except UnwrapError E
  | .ok _ => Except.error ⟨message⟩
  | .err e => Except.ok e

/-- `unwrapOr(defaultValue)`: `Ok` returns its value; `Err` returns the
default. -/
def unwrapOr (defaultValue : T) : Result T E → T
  | .ok v => v
  | .err _ => defaultValue

/-- `unwrapOrElse(fn)`: `Ok` returns its value; `Err` returns `fn(error)`. -/
def unwrapOrElse (fn : E → T) : Result T E → T
  | .ok v => v
  | .err e => fn e

/-- `map(fn)`: `Ok` returns `new Ok(fn(value))`; `Err` returns itself
unchanged (`return this`). -/
def map (fn : T → U) : Result T E → Result U E
  | .ok v => .ok (fn v)
  | .err e => .err e

/-- `mapErr(fn)`: `Ok` returns itself unchanged; `Err` returns
`new Err(fn(error))`. -/
def mapErr (fn : E → F) : Result T E → Result T F
  | .ok v => .ok v
  | .err e => .err (fn e)

/-- `andThen(fn)`: `Ok` returns `fn(value)`; `Err` returns itself
unchanged. -/
def andThen (fn : T → Result U E) : Result T E → Result U E
  | .ok v => fn v
  | .err e => .err e

/-- `toOption()`: `Ok` returns `Option.some(value)`; `Err` returns
`Option.none()`. -/
def toOption : Result T E → Option T
  | .ok v => .some v
  | .err _ => .none

/-- `Result.fromNullable(value, error)`: `Err(error)` when
`value === null || value === undefined`, else `Ok(value)`. -/
def fromNullable (x : Nullable T) (error : E) : Result T E :=
  match x with
  | .null => .err error
  | .undefined => .err error
  | .value v => .ok v

/-- The loop body of `Result.all`: walks the array with the accumulated
`values`; when `r.isErr()` it returns `r` itself (re-typed); otherwise it
pushes `r.unwrap()` — a genuine call of the throwing extractor — and
continues. -/
def allGo (stringify : E → String) (values : List T) :
    List (Result T E) → Except UnwrapError (Result (List T) E)
  | [] => Except.ok (.ok values)
  | .err e :: _ => Except.ok (.err e)
  | .ok v :: rest =>
      match (Result.ok v : Result T E).unwrap stringify with
      | Except.error u => Except.error u
      | Except.ok value => allGo stringify (values ++ [value]) rest

/-- `Result.all(results)`: sequential fold starting from `values = []`. -/
def all (stringify : E → String) (results : List (Result T E)) :
    Except UnwrapError (Result (List T) E) :=
  allGo stringify [] results

/-- The loop body of `Result.any`: walks the array with the accumulated
`errors`; when `r.isOk()` it returns `r` itself (re-typed); otherwise it
extracts the error through `unwrapOrElse`'s callback (which cannot throw)
and continues. -/
def anyGo (errors : List E) : List (Result T E) → Result T (List E)
  | [] => .err errors
  | .ok v :: _ => .ok v
  | .err e :: rest => anyGo (errors ++ [e]) rest

/-- `Result.any(results)`: sequential fold starting from `errors = []`. -/
def any (results : List (Result T E)) : Result T (List E) :=
  anyGo [] results

end Result

namespace Option

variable {T : Type u} {U : Type v} {E : Type w} {A : Type u} {B : Type v}

/-- `Some.isSome` returns `true`; `None.isSome` returns `false`. -/
def isSome : Option T → Bool
  | .some _ => true
  | .none => false

/-- `Some.isNone` returns `false`; `None.isNone` returns `true`. -/
def isNone : Option T → Bool
  | .some _ => false
  | .none => true

/-- `unwrap()`: `Some` returns its value; `None` throws
`new UnwrapError("Called unwrap on a None value")`. -/
def unwrap : Option T → Except UnwrapError T
  | .some v => Except.ok v
  | .none => Except.error ⟨"Called unwrap on a None value"⟩

/-- `expect(message)`: `Some` returns its value; `None` throws
`new UnwrapError(message)`. -/
def expect (message : String) : Option T → Except UnwrapError T
  | .some v => Except.ok v
  | .none => Except.error ⟨message⟩

/-- `map(fn)`: `Some` returns `new Some(fn(value))`; `None` returns
`Option.none()`. -/
def map (fn : T → U) : Option T → Option U
  | .some v => .some (fn v)
  | .none => .none

/-- `xor(other)` from the base class: if `this.isSome()` then
`other.isSome() ? none : this`, else `other.isSome() ? other : this`. -/
def xor (self other : Option T) : Option T :=
  if self.isSome then
    if other.isSome then Option.none else self
  else
    if other.isSome then other else self

/-- `zip(other)` from the base class: when `this.isSome() && other.isSome()`
it builds the pair `[this.unwrap(), other.unwrap()]` — genuine calls of the
throwing extractor — and wraps it in `Some`; otherwise returns `None`. -/
def zip (self : Option T) (other : Option U) :
    Except UnwrapError (Option (T × U)) :=
  if self.isSome && other.isSome then
    match self.unwrap with
    | Except.error u => Except.error u
    | Except.ok a =>
        match other.unwrap with
        | Except.error u => Except.error u
        | Except.ok b => Except.ok (.some (a, b))
  else
    Except.ok .none

/-- `zipWith(other, fn)` from the base class: when both are present returns
`Some(fn(this.unwrap(), other.unwrap()))`; otherwise `None`. -/
def zipWith (self : Option T) (other : Option U) (fn : T → U → E) :
    Except UnwrapError (Option E) :=
  if self.isSome && other.isSome then
    match self.unwrap with
    | Except.error u => Except.error u
    | Except.ok a =>
        match other.unwrap with
        | Except.error u => Except.error u
        | Except.ok b => Except.ok (.some (fn a b))
  else
    Except.ok .none

/-- `unzip()` from the base class: a present pair `[a, b]` (read through
`this.unwrap()`) splits into `[Some(a), Some(b)]`; absence splits into
`[None, None]`. -/
def unzip (self : Option (A × B)) :
    Except UnwrapError (Option A × Option B) :=
  if self.isSome then
    match self.unwrap with
    | Except.error u => Except.error u
    | Except.ok p => Except.ok (.some p.1, .some p.2)
  else
    Except.ok (.none, .none)

/-- `Option.fromNullable(value)`: `None` when
`value === null || value === undefined`, else `Some(value)`. -/
def fromNullable (x : Nullable T) : Option T :=
  match x with
  | .null => .none
  | .undefined => .none
  | .value v => .some v

/-- The loop body of `Option.all`: walks the array with the accumulated
`values`; when `o.isNone()` it returns `Option.none()`; otherwise it pushes
`o.unwrap()` — a genuine call of the throwing extractor — and continues. -/
def allGo (values : List T) :
    List (Option T) → Except UnwrapError (Option (List T))
  | [] => Except.ok (.some values)
  | .none :: _ => Except.ok .none
  | .some v :: rest =>
      match (Option.some v : Option T).unwrap with
      | Except.error u => Except.error u
      | Except.ok value => allGo (values ++ [value]) rest

/-- `Option.all(options)`: sequential fold starting from `values = []`. -/
def all (options : List (Option T)) : Except UnwrapError (Option (List T)) :=
  allGo [] options

/-- `Option.any(options)`: returns the first `o` with `o.isSome()`;
`Option.none()` when the loop finishes. -/
def any : List (Option T) → Option T
  | [] => .none
  | o :: rest => if o.isSome then o else any rest

end Option

/-! Helper lemmas about the aggregation loops. -/

namespace Result

variable {T : Type u} {E : Type v}

theorem allGo_append_oks (stringify : E → String) (vs : List T) :
    ∀ (values : List T) (rest : List (Result T E)),
      allGo stringify values (vs.map Result.ok ++ rest)
        = allGo stringify (values ++ vs) rest := by
  induction vs with
  | nil => intro values rest; simp
  | cons v vs ih =>
      intro values rest
      simp only [List.map_cons, List.cons_append, allGo, unwrap, List.append_eq,
        ih, List.append_assoc, List.singleton_append, List.nil_append]

theorem allGo_never_raises (stringify : E → String) :
    ∀ (rs : List (Result T E)) (values : List T),
      ∃ res, allGo stringify values rs = Except.ok res := by
  intro rs
  induction rs with
  | nil => intro values; exact ⟨.ok values, rfl⟩
  | cons r rest ih =>
      intro values
      cases r with
      | ok v => simpa [allGo, unwrap] using ih (values ++ [v])
      | err e => exact ⟨.err e, rfl⟩

theorem anyGo_append_errs (es : List E) :
    ∀ (errors : List E) (rest : List (Result T E)),
      anyGo (errors : List E) (es.map Result.err ++ rest)
        = anyGo (errors ++ es) rest := by
  induction es with
  | nil => intro errors rest; simp
  | cons e es ih =>
      intro errors rest
      simp only [List.map_cons, List.cons_append, anyGo, List.append_eq,
        ih, List.append_assoc, List.singleton_append, List.nil_append]

end Result

namespace Option

variable {T : Type u}

theorem allGo_append_somes (vs : List T) :
    ∀ (values : List T) (rest : List (Option T)),
      allGo (values : List T) (vs.map Option.some ++ rest)
        = allGo (values ++ vs) rest := by
  induction vs with
  | nil => intro values rest; simp
  | cons v vs ih =>
      intro values rest
      simp only [List.map_cons, List.cons_append, allGo, unwrap, List.append_eq,
        ih, List.append_assoc, List.singleton_append, List.nil_append]

theorem optionAllGo_never_raises :
    ∀ (os : List (Option T)) (values : List T),
      ∃ res, allGo values os = Except.ok res := by
  intro os
  induction os with
  | nil => intro values; exact ⟨.some values, rfl⟩
  | cons o rest ih =>
      intro values
      cases o with
      | some v => simpa [allGo, unwrap] using ih (values ++ [v])
      | none => exact ⟨.none, rfl⟩

theorem any_skip_nones (k : Nat) (rest : List (Option T)) :
    any (List.replicate k Option.none ++ rest) = any rest := by
  induction k with
  | zero => simp
  | succ k ih => simpa [List.replicate_succ, any] using ih

end Option

/-! Claim theorems. -/

/-- C1: across the public surface, the only operations that ever raise are
the unsafe extractors — `unwrap`, `expect`, `unwrapErr`, `expectErr` on
`Result` and `unwrap`, `expect` on `Option` — applied to the wrong variant;
every value they raise is of the `UnwrapError` kind (its `name` is
`"UnwrapError"`); and every operation whose body reaches `unwrap`
internally (`Result.all`, `Option.all`, `zip`, `zipWith`, `unzip`) returns
normally on every input, every error payload included. All other
operations are plain total functions of their inputs by construction. -/
theorem only_unsafe_extraction_raises (T E R : Type)
    (stringify : E → String) :
    (∀ e : E, (Result.err e : Result T E).unwrap stringify
        = Except.error ⟨"Called unwrap on an Err value: " ++ stringify e⟩) ∧
    (∀ v : T, (Result.ok v : Result T E).unwrap stringify = Except.ok v) ∧
    (∀ (e : E) (m : String),
      (Result.err e : Result T E).expect m = Except.error ⟨m⟩) ∧
    (∀ (v : T) (m : String),
      (Result.ok v : Result T E).expect m = Except.ok v) ∧
    (∀ v : T, (Result.ok v : Result T E).unwrapErr
        = Except.error ⟨"Called unwrapErr on an Ok value"⟩) ∧
    (∀ e : E, (Result.err e : Result T E).unwrapErr = Except.ok e) ∧
    (∀ (v : T) (m : String),
      (Result.ok v : Result T E).expectErr m = Except.error ⟨m⟩) ∧
    (∀ (e : E) (m : String),
      (Result.err e : Result T E).expectErr m = Except.ok e) ∧
    ((Option.none : Option T).unwrap
        = Except.error ⟨"Called unwrap on a None value"⟩) ∧
    (∀ v : T, (Option.some v : Option T).unwrap = Except.ok v) ∧
    (∀ m : String, (Option.none : Option T).expect m = Except.error ⟨m⟩) ∧
    (∀ (v : T) (m : String),
      (Option.some v : Option T).expect m = Except.ok v) ∧
    (∀ u : UnwrapError, u.name = "UnwrapError") ∧
    (∀ rs : List (Result T E),
      ∃ res, Result.all stringify rs = Except.ok res) ∧
    (∀ os : List (Option T), ∃ res, Option.all os = Except.ok res) ∧
    (∀ (a : Option T) (b : Option E), ∃ res, a.zip b = Except.ok res) ∧
    (∀ (a : Option T) (b : Option E) (fn : T → E → R),
      ∃ res, a.zipWith b fn = Except.ok res) ∧
    (∀ p : Option (T × E), ∃ res, p.unzip = Except.ok res) := by
  refine ⟨fun _ => rfl, fun _ => rfl, fun _ _ => rfl, fun _ _ => rfl,
    fun _ => rfl, fun _ => rfl, fun _ _ => rfl, fun _ _ => rfl,
    rfl, fun _ => rfl, fun _ => rfl, fun _ _ => rfl,
    fun _ => rfl, ?_, ?_, ?_, ?_, ?_⟩
  · intro rs
    exact Result.allGo_never_raises stringify rs []
  · intro os
    exact Option.optionAllGo_never_raises os []
  · intro a b
    cases a <;> cases b <;> exact ⟨_, rfl⟩
  · intro a b fn
    cases a <;> cases b <;> exact ⟨_, rfl⟩
  · intro p
    cases p <;> exact ⟨_, rfl⟩

/-- C2: `Result.all` returns `Ok []` on the empty array; after a prefix of
`Ok` elements it returns the first `Err` element as the overall failure,
whatever the remaining elements are (short-circuit, result independent of
the suffix); and when every element is `Ok` it returns `Ok` of all contained
values in the original order. -/
theorem result_all_spec (T E : Type) (stringify : E → String) :
    (Result.all stringify ([] : List (Result T E))
        = Except.ok (Result.ok [])) ∧
    (∀ (vs : List T) (e : E) (rest : List (Result T E)),
      Result.all stringify (vs.map Result.ok ++ Result.err e :: rest)
        = Except.ok (Result.err e)) ∧
    (∀ vs : List T,
      Result.all stringify (vs.map Result.ok) = Except.ok (Result.ok vs)) := by
  refine ⟨rfl, ?_, ?_⟩
  · intro vs e rest
    simp [Result.all, Result.allGo_append_oks, Result.allGo]
  · intro vs
    have h := Result.allGo_append_oks stringify vs ([] : List T)
        ([] : List (Result T E))
    simpa [Result.all, Result.allGo] using h

/-- C3: `Result.any` returns `Err []` on the empty array; after a prefix of
`Err` elements it returns the first `Ok` element as the overall success,
whatever the remaining elements are (short-circuit); and when every element
is `Err` it returns a single `Err` holding all error values in the original
order. -/
theorem result_any_spec (T E : Type) :
    (Result.any ([] : List (Result T E)) = Result.err []) ∧
    (∀ (es : List E) (v : T) (rest : List (Result T E)),
      Result.any (es.map Result.err ++ Result.ok v :: rest)
        = Result.ok v) ∧
    (∀ es : List E,
      Result.any (es.map Result.err : List (Result T E))
        = Result.err es) := by
  refine ⟨rfl, ?_, ?_⟩
  · intro es v rest
    simp [Result.any, Result.anyGo_append_errs, Result.anyGo]
  · intro es
    have h := Result.anyGo_append_errs (T := T) es ([] : List E)
        ([] : List (Result T E))
    simpa [Result.any, Result.anyGo] using h

/-- C4: `Option.all` returns `Some []` on the empty array, `None` as soon as
it meets the first `None` (whatever the remaining elements are), and `Some`
of all contained values in order when every element is `Some`; `Option.any`
returns the first `Some` element found, and `None` exactly on all-`None`
arrays, the empty array included. -/
theorem option_all_any_spec (T : Type) :
    (Option.all ([] : List (Option T)) = Except.ok (Option.some [])) ∧
    (∀ (vs : List T) (rest : List (Option T)),
      Option.all (vs.map Option.some ++ Option.none :: rest)
        = Except.ok Option.none) ∧
    (∀ vs : List T,
      Option.all (vs.map Option.some) = Except.ok (Option.some vs)) ∧
    (Option.any ([] : List (Option T)) = Option.none) ∧
    (∀ (k : Nat) (v : T) (rest : List (Option T)),
      Option.any (List.replicate k Option.none ++ Option.some v :: rest)
        = Option.some v) ∧
    (∀ k : Nat,
      Option.any (List.replicate k (Option.none : Option T))
        = Option.none) := by
  refine ⟨rfl, ?_, ?_, rfl, ?_, ?_⟩
  · intro vs rest
    simp [Option.all, Option.allGo_append_somes, Option.allGo]
  · intro vs
    have h := Option.allGo_append_somes vs ([] : List T)
        ([] : List (Option T))
    simpa [Option.all, Option.allGo] using h
  · intro k v rest
    simp [Option.any_skip_nones, Option.any, Option.isSome]
  · intro k
    have h := Option.any_skip_nones (T := T) k []
    simpa [Option.any] using h

/-- C5: `Result.fromNullable(value, error)` yields `Err(error)` exactly on
the two nullish inputs `null` and `undefined` and `Ok(value)` on every
genuine value; `Option.fromNullable` behaves the same with `None`/`Some`;
in particular the falsy values `0`, `""` and `false` all land in the
success/present variant. -/
theorem fromNullable_spec (T E : Type) (e : E) :
    (Result.fromNullable (Nullable.null : Nullable T) e = Result.err e) ∧
    (Result.fromNullable (Nullable.undefined : Nullable T) e
        = Result.err e) ∧
    (∀ v : T, Result.fromNullable (Nullable.value v) e = Result.ok v) ∧
    (Option.fromNullable (Nullable.null : Nullable T) = Option.none) ∧
    (Option.fromNullable (Nullable.undefined : Nullable T) = Option.none) ∧
    (∀ v : T, Option.fromNullable (Nullable.value v) = Option.some v) ∧
    (Result.fromNullable (Nullable.value (0 : Nat)) "e" = Result.ok 0) ∧
    (Result.fromNullable (Nullable.value "") "e" = Result.ok "") ∧
    (Result.fromNullable (Nullable.value false) "e" = Result.ok false) ∧
    (Option.fromNullable (Nullable.value (0 : Nat)) = Option.some 0) ∧
    (Option.fromNullable (Nullable.value "") = Option.some "") ∧
    (Option.fromNullable (Nullable.value false) = Option.some false) := by
  exact ⟨rfl, rfl, fun _ => rfl, rfl, rfl, fun _ => rfl,
    rfl, rfl, rfl, rfl, rfl, rfl⟩

/-- C6 counterexample: at the success value `Result.ok 0`, `unwrapErr`
raises an `UnwrapError` whose message is `"Called unwrapErr on an Ok
value"`, not the claimed `"called unwrapErr on a success value"`. -/
theorem unwrapErr_message_cex :
    ((Result.ok (0 : Nat) : Result Nat Nat).unwrapErr
        = Except.error ⟨"Called unwrapErr on an Ok value"⟩) ∧
    ¬ ((Result.ok (0 : Nat) : Result Nat Nat).unwrapErr
        = Except.error ⟨"called unwrapErr on a success value"⟩) := by
  exact ⟨rfl, by decide⟩

/-- C6 amended: `unwrapErr` returns the contained error on the failure
variant and raises an `UnwrapError` whose message is
`"Called unwrapErr on an Ok value"` on the success variant. -/
theorem unwrapErr_spec (T E : Type) :
    (∀ e : E, (Result.err e : Result T E).unwrapErr = Except.ok e) ∧
    (∀ v : T, (Result.ok v : Result T E).unwrapErr
        = Except.error ⟨"Called unwrapErr on an Ok value"⟩) := by
  exact ⟨fun _ => rfl, fun _ => rfl⟩

/-- C7: `xor` returns the present operand when exactly one of the two is
present, and the absent variant when both are absent or both present. -/
theorem option_xor_spec (T : Type) :
    (∀ x : T, (Option.some x).xor Option.none = Option.some x) ∧
    (∀ x : T, (Option.none : Option T).xor (Option.some x)
        = Option.some x) ∧
    (∀ x y : T, (Option.some x).xor (Option.some y) = Option.none) ∧
    ((Option.none : Option T).xor Option.none = Option.none) := by
  exact ⟨fun _ => rfl, fun _ => rfl, fun _ _ => rfl, rfl⟩

/-- C8: `map` with the identity function leaves any `Result` or `Option`
unchanged; two `map`s compose into one `map` of the composed function; and
on failure/absent containers `map` returns the container unchanged whatever
function is supplied. -/
theorem map_laws (T E U V : Type) :
    (∀ r : Result T E, r.map (fun x => x) = r) ∧
    (∀ (r : Result T E) (f : T → U) (g : U → V),
      (r.map f).map g = r.map (fun x => g (f x))) ∧
    (∀ (e : E) (f : T → U),
      (Result.err e : Result T E).map f = Result.err e) ∧
    (∀ o : Option T, o.map (fun x => x) = o) ∧
    (∀ (o : Option T) (f : T → U) (g : U → V),
      (o.map f).map g = o.map (fun x => g (f x))) ∧
    (∀ f : T → U, (Option.none : Option T).map f = Option.none) := by
  refine ⟨?_, ?_, fun _ _ => rfl, ?_, ?_, fun _ => rfl⟩
  · intro r; cases r <;> rfl
  · intro r f g; cases r <;> rfl
  · intro o; cases o <;> rfl
  · intro o f g; cases o <;> rfl

/-- C9: `Result.ok v |> toOption` is present and its `unwrap` returns
exactly `v`; `Result.err e |> toOption` is absent (`isNone` is `true`), so
the error value is discarded. -/
theorem toOption_roundtrip (T E : Type) :
    (∀ v : T, ((Result.ok v : Result T E).toOption).isSome = true) ∧
    (∀ v : T, ((Result.ok v : Result T E).toOption).unwrap = Except.ok v) ∧
    (∀ e : E, ((Result.err e : Result T E).toOption).isNone = true) := by
  exact ⟨fun _ => rfl, fun _ => rfl, fun _ => rfl⟩

/-- C10: on the failure variant, `unwrap` raises an `UnwrapError` whose
message is exactly `"Called unwrap on an Err value: "` followed by the
JSON rendering of the error payload, while `expect` raises an `UnwrapError`
carrying exactly the caller-supplied message with nothing appended. -/
theorem err_unwrap_message (T E : Type) (stringify : E → String) :
    (∀ e : E, (Result.err e : Result T E).unwrap stringify
        = Except.error ⟨"Called unwrap on an Err value: " ++ stringify e⟩) ∧
    (∀ (e : E) (m : String),
      (Result.err e : Result T E).expect m = Except.error ⟨m⟩) := by
  exact ⟨fun _ => rfl, fun _ _ => rfl⟩

end Kitsune
